import Mathlib

/-!
Verification development for the `recon-mcp-server` client
(`recon_api.py` and `config.py`).

The Python client is embedded shallowly:
* stateful methods become explicit state passing over `ReconState`;
* wall-clock time (`datetime.now()`) becomes an explicit `now : Int`
  parameter (seconds; `timedelta(seconds = k)` becomes `+ k`);
* the single HTTP call an operation makes becomes a `NetOutcome`
  parameter (the response the server would give, or a network error);
* the filesystem seen by `os.path.exists` becomes a list of existing
  paths;
* observable side effects (HTTP requests issued, local files opened)
  are returned in an `Effects` record so "performs no network call"
  is the statement `effects.requests = []`.
-/

namespace Recon

/-- Minimal JSON value model for response bodies (`response.json()`). -/
inductive Json where
  | null
  | str (s : String)
  | num (n : Int)
  | bool (b : Bool)
  | obj (fields : List (String × Json))

/-- `d.get(k)` on a parsed JSON object: `none` when the key is absent
or the value is not an object. -/
def Json.get : Json → String → Option Json
  | .obj fields, k => fields.lookup k
  | _, _ => none

/-- `result.get(k)` where the code stores the value only when it is a
string (the token fields); absent or non-string gives `none`
(Python stores `None` for an absent key). -/
def jsonGetStr? (j : Json) (k : String) : Option String :=
  match j.get k with
  | some (.str s) => some s
  | _ => none

/-- `result.get(k, d)` for a string-valued field with default `d`. -/
def jsonGetStrD (j : Json) (k : String) (d : String) : String :=
  match j.get k with
  | some (.str s) => s
  | _ => d

/-- `result.get(k, d)` for an integer-valued field with default `d`. -/
def jsonGetIntD (j : Json) (k : String) (d : Int) : Int :=
  match j.get k with
  | some (.num n) => n
  | _ => d

/-- The `detail` attached to a non-2xx result: `response.json()` when
the body parses, else `response.text`. -/
inductive Detail where
  | json (j : Json)
  | text (t : String)

/-- An HTTP response as the client observes it: status code, the JSON
parse of the body when it parses (`none` models an unparseable body),
and the raw body text. -/
structure HttpResponse where
  status : Nat
  jsonBody : Option Json
  text : String

/-- `try: error_detail = response.json() except: error_detail = response.text`. -/
def detailOf (r : HttpResponse) : Detail :=
  match r.jsonBody with
  | some j => Detail.json j
  | none => Detail.text r.text

/-- Outcome of the one HTTP call an operation attempts: a response, or
a `requests.exceptions.RequestException` with message `msg`. -/
inductive NetOutcome where
  | response (r : HttpResponse)
  | netError (msg : String)

/-- An HTTP request as issued by the client: URL and the
`Authorization` header attached (from `_get_auth_headers`). -/
structure Request where
  url : String
  authHeader : Option String := none

/-- Observable local side effects of one operation. -/
structure Effects where
  requests : List Request := []
  opened : List String := []

/-- The result dict every operation returns. Fields that a given
operation does not put in its dict stay `none`; `access_token` is
`Option (Option String)` because on success the field is present but
its value may itself be Python `None`. -/
structure OpResult where
  success : Bool
  error : Option String := none
  detail : Option Detail := none
  access_token : Option (Option String) := none
  token_type : Option String := none
  expires_in : Option Int := none
  workspace_id : Option Json := none
  config_id : Option Json := none
  message : Option Json := none
  status : Option Json := none
  progress : Option Json := none
  file_path : Option String := none
  file_size : Option Nat := none

/-- The mutable state of a `ReconAPIClient` instance: base URL, stored
token (`None` initially, and possibly `None` again after a token-less
200 login), and the computed expiry instant. -/
structure ReconState where
  baseUrl : String
  token : Option String
  tokenExpiration : Option Int

/-- `base_url.rstrip(&quot;/&quot;)`: drop trailing slashes. -/
def rstripSlashes (s : String) : String :=
  ⟨(s.data.reverse.dropWhile (fun c => c = '/')).reverse⟩

/-- `ReconAPIClient.__init__`: no token, no expiry. -/
def initClient (baseUrl : String) : ReconState :=
  { baseUrl := rstripSlashes baseUrl, token := none, tokenExpiration := none }

/-- `ReconAPIClient._is_token_valid`. `not self.token` is true for both
`None` and the empty string; `datetime.now() >= self.token_expiration`
returns `False`, so validity is `now < expiry` strictly. -/
def isTokenValid (now : Int) (s : ReconState) : Bool :=
  match s.token, s.tokenExpiration with
  | some t, some exp => if t = "" then false else decide (now < exp)
  | _, _ => false

/-- The message of the `ValueError` raised by `_get_auth_headers` and
returned as `error` by every operation called without a valid token. -/
def authErrMsg : String := "No valid authentication token. Please authenticate first."

/-- `ReconAPIClient.authenticate`. Returns the updated client state and
the result dict. On HTTP 200 it stores `result.get("access_token")`
(Python `None` when absent) and expiry `now + (expires_in - 60)`; on a
non-200 status or a network error the state is untouched. An
unparseable 200 body makes `response.json()` raise; the exception is
caught by the surrounding handlers, again leaving state untouched (the
exact message text is requests-internal and abstracted here). -/
def authenticate (now : Int) (s : ReconState) (username password : String)
    (outcome : NetOutcome) : ReconState × OpResult :=
  match outcome with
  | .netError msg =>
    (s, { success := false, error := some ("Network error during authentication: " ++ msg) })
  | .response r =>
    if r.status = 200 then
      match r.jsonBody with
      | none =>
        (s, { success := false, error := some "Network error during authentication: invalid JSON body" })
      | some body =>
        ({ s with
            token := jsonGetStr? body "access_token",
            tokenExpiration := some (now + (jsonGetIntD body "expires_in" 3600 - 60)) },
         { success := true,
           access_token := some (jsonGetStr? body "access_token"),
           token_type := some (jsonGetStrD body "token_type" "Bearer"),
           expires_in := some (jsonGetIntD body "expires_in" 3600) })
    else
      (s, { success := false,
            error := some ("Authentication failed with status " ++ toString r.status),
            detail := some (detailOf r) })

/-- `ReconAPIClient.upload_files`. The two `os.path.exists` checks come
first; the token check (`_get_auth_headers`, whose `ValueError` is
caught and returned) comes before the files are opened and the request
is sent. `fs` is the set of existing local paths. -/
def upload_files (now : Int) (s : ReconState) (fs : List String)
    (file1Path file2Path configName : String) (outcome : NetOutcome) :
    OpResult × Effects :=
  let url := s.baseUrl ++ "/workspaces/upload"
  if fs.contains file1Path = false then
    ({ success := false, error := some ("File not found: " ++ file1Path) }, {})
  else if fs.contains file2Path = false then
    ({ success := false, error := some ("File not found: " ++ file2Path) }, {})
  else if isTokenValid now s = false then
    ({ success := false, error := some authErrMsg }, {})
  else
    let eff : Effects :=
      { requests := [{ url := url, authHeader := some ("Bearer " ++ s.token.getD "") }],
        opened := [file1Path, file2Path] }
    match outcome with
    | .netError msg =>
      ({ success := false, error := some ("Network error during upload: " ++ msg) }, eff)
    | .response r =>
      if r.status = 200 ∨ r.status = 201 then
        match r.jsonBody with
        | none =>
          ({ success := false, error := some "Network error during upload: invalid JSON body" }, eff)
        | some body =>
          ({ success := true,
             workspace_id := some ((body.get "workspace_id").getD .null),
             config_id := some ((body.get "config_id").getD .null),
             message := some ((body.get "message").getD (.str "Files uploaded successfully")) }, eff)
      else
        ({ success := false,
           error := some ("Upload failed with status " ++ toString r.status),
           detail := some (detailOf r) }, eff)

/-- `ReconAPIClient.set_field_mapping`: no local file precondition;
token check, then a JSON POST keyed by both ids. -/
def set_field_mapping (now : Int) (s : ReconState)
    (workspaceId configId : String) (mappings : Json) (outcome : NetOutcome) :
    OpResult × Effects :=
  let url := s.baseUrl ++ "/field-mapping/" ++ workspaceId ++ "/" ++ configId
  if isTokenValid now s = false then
    ({ success := false, error := some authErrMsg }, {})
  else
    let eff : Effects :=
      { requests := [{ url := url, authHeader := some ("Bearer " ++ s.token.getD "") }] }
    match outcome with
    | .netError msg =>
      ({ success := false, error := some ("Network error during field mapping: " ++ msg) }, eff)
    | .response r =>
      if r.status = 200 ∨ r.status = 201 then
        match r.jsonBody with
        | none =>
          ({ success := false, error := some "Network error during field mapping: invalid JSON body" }, eff)
        | some body =>
          ({ success := true,
             message := some ((body.get "message").getD (.str "Field mappings configured successfully")) }, eff)
      else
        ({ success := false,
           error := some ("Field mapping failed with status " ++ toString r.status),
           detail := some (detailOf r) }, eff)

/-- `ReconAPIClient.run_reconciliation`: same file checks as upload,
then token check, then a multipart POST to `/auto-recon/{config_id}`. -/
def run_reconciliation (now : Int) (s : ReconState) (fs : List String)
    (configId file1Path file2Path : String) (outcome : NetOutcome) :
    OpResult × Effects :=
  let url := s.baseUrl ++ "/auto-recon/" ++ configId
  if fs.contains file1Path = false then
    ({ success := false, error := some ("File not found: " ++ file1Path) }, {})
  else if fs.contains file2Path = false then
    ({ success := false, error := some ("File not found: " ++ file2Path) }, {})
  else if isTokenValid now s = false then
    ({ success := false, error := some authErrMsg }, {})
  else
    let eff : Effects :=
      { requests := [{ url := url, authHeader := some ("Bearer " ++ s.token.getD "") }],
        opened := [file1Path, file2Path] }
    match outcome with
    | .netError msg =>
      ({ success := false, error := some ("Network error during reconciliation: " ++ msg) }, eff)
    | .response r =>
      if r.status = 200 ∨ r.status = 201 then
        match r.jsonBody with
        | none =>
          ({ success := false, error := some "Network error during reconciliation: invalid JSON body" }, eff)
        | some body =>
          ({ success := true,
             workspace_id := some ((body.get "workspace_id").getD .null),
             message := some ((body.get "message").getD (.str "Reconciliation started successfully")) }, eff)
      else
        ({ success := false,
           error := some ("Reconciliation failed with status " ++ toString r.status),
           detail := some (detailOf r) }, eff)

/-- `ReconAPIClient.check_status`: token check, then a GET; on 200 the
fields default to `"unknown"`, `0` and `""` when the server omits them. -/
def check_status (now : Int) (s : ReconState) (workspaceId : String)
    (outcome : NetOutcome) : OpResult × Effects :=
  let url := s.baseUrl ++ "/workspaces/" ++ workspaceId ++ "/status"
  if isTokenValid now s = false then
    ({ success := false, error := some authErrMsg }, {})
  else
    let eff : Effects :=
      { requests := [{ url := url, authHeader := some ("Bearer " ++ s.token.getD "") }] }
    match outcome with
    | .netError msg =>
      ({ success := false, error := some ("Network error during status check: " ++ msg) }, eff)
    | .response r =>
      if r.status = 200 then
        match r.jsonBody with
        | none =>
          ({ success := false, error := some "Network error during status check: invalid JSON body" }, eff)
        | some body =>
          ({ success := true,
             status := some ((body.get "status").getD (.str "unknown")),
             progress := some ((body.get "progress").getD (.num 0)),
             message := some ((body.get "message").getD (.str "")) }, eff)
      else
        ({ success := false,
           error := some ("Status check failed with status " ++ toString r.status),
           detail := some (detailOf r) }, eff)

/-- `ReconAPIClient.download_results`: token check first
(`_get_auth_headers` runs before `os.makedirs`), then a streaming GET.
On 200 the body is written to `outputPath`; the streamed byte count is
modelled as `r.text.length` and `os.path.abspath` as the identity
(path normalisation is out of scope of the claims). `os.makedirs` and
the distinct `IOError` branch are not modelled: no claim depends on
them. -/
def download_results (now : Int) (s : ReconState)
    (workspaceId outputPath : String) (outcome : NetOutcome) :
    OpResult × Effects :=
  let url := s.baseUrl ++ "/workspaces/" ++ workspaceId ++ "/download"
  if isTokenValid now s = false then
    ({ success := false, error := some authErrMsg }, {})
  else
    let eff : Effects :=
      { requests := [{ url := url, authHeader := some ("Bearer " ++ s.token.getD "") }] }
    match outcome with
    | .netError msg =>
      ({ success := false, error := some ("Network error during download: " ++ msg) }, eff)
    | .response r =>
      if r.status = 200 then
        ({ success := true,
           file_path := some outputPath,
           file_size := some r.text.length }, { eff with opened := [outputPath] })
      else
        ({ success := false,
           error := some ("Download failed with status " ++ toString r.status),
           detail := some (detailOf r) }, eff)

end Recon

namespace ReconConfig

/-!
Embedding of `config.py`. `get_field_mapping_template` returns
`templates[template_name.lower()].copy()` — `dict.copy()` is Python's
shallow copy, so object identity and aliasing are observable. We model
the Python object graph with a small heap: values are immutable
scalars or references to heap objects (dicts and lists). -/

/-- A Python value: an immutable scalar, or a reference to a mutable
heap object. -/
inductive PyVal where
  | none
  | str (s : String)
  | bool (b : Bool)
  | int (n : Int)
  | ref (addr : Nat)
deriving Repr, DecidableEq

/-- A mutable Python object: a dict (insertion-ordered fields) or a
list. -/
inductive PyObj where
  | dict (fields : List (String × PyVal))
  | list (items : List PyVal)
deriving Repr, DecidableEq

/-- The Python heap: objects by address, plus the next fresh address. -/
structure Heap where
  objs : List (Nat × PyObj)
  nextAddr : Nat
deriving Repr, DecidableEq

/-- Dereference an address. -/
def heapGet (h : Heap) (a : Nat) : Option PyObj :=
  h.objs.lookup a

/-- Replace the object stored at an existing address. -/
def heapSet (h : Heap) (a : Nat) (o : PyObj) : Heap :=
  { h with objs := h.objs.map (fun p => if p.1 = a then (a, o) else p) }

/-- `d[k] = v` on a dict's field list: update in place, else append
(Python dicts keep insertion order). -/
def setField : List (String × PyVal) → String → PyVal → List (String × PyVal)
  | [], k, v => [(k, v)]
  | (k', v') :: rest, k, v =>
    if k' = k then (k, v) :: rest else (k', v') :: setField rest k v

/-- `obj[k] = v` where `obj` is the dict at address `a` (no-op on a
non-dict, a case no theorem exercises). -/
def dictSetField (h : Heap) (a : Nat) (k : String) (v : PyVal) : Heap :=
  match heapGet h a with
  | some (.dict fields) => heapSet h a (.dict (setField fields k v))
  | _ => h

/-- `dict.copy()`: allocate a fresh dict with the same field list; the
field values — including references to nested objects — are shared
(shallow copy). Identity on a non-dict address, a case no theorem
exercises. -/
def dictCopy (h : Heap) (a : Nat) : Heap × Nat :=
  match heapGet h a with
  | some (.dict fields) =>
    ({ objs := h.objs ++ [(h.nextAddr, .dict fields)], nextAddr := h.nextAddr + 1 },
     h.nextAddr)
  | _ => (h, a)

/-- Python truthiness of a value, as used by
`if mapping.get(&quot;is_primary_key&quot;):` — `None` is falsy, scalars by
content, references (non-empty objects aside, which the code never
relies on) truthy. -/
def pyTruthy : PyVal → Bool
  | .none => false
  | .str s => !s.isEmpty
  | .bool b => b
  | .int n => decide (n ≠ 0)
  | .ref _ => true

/-- One entry of the `SAMSUNG_FIELD_MAPPINGS` `"mappings"` list, as
pure data (used to build the heap and to read documents back). -/
structure FieldMapping where
  file1_column : String
  file2_column : String
  is_primary_key : Bool
deriving Repr, DecidableEq

/-- The dict object for one mapping entry, with the three keys in the
source's order. -/
def mappingDict (m : FieldMapping) : PyObj :=
  .dict [("file1_column", .str m.file1_column),
         ("file2_column", .str m.file2_column),
         ("is_primary_key", .bool m.is_primary_key)]

/-- The ten entries of `SAMSUNG_FIELD_MAPPINGS["mappings"]`, in source
order. -/
def samsungDoc : List FieldMapping :=
  [⟨"txn_ref_number", "Transaction Reference", true⟩,
   ⟨"TRANSACTIONAMOUNT", "Paid Amount", false⟩,
   ⟨"product_amount", "MRP", false⟩,
   ⟨"PRODUCT_CATEGORY", "PRODUCT_CATEGORY", false⟩,
   ⟨"Tenure", "Tenure", false⟩,
   ⟨"RATE_OF_INTEREST____P_A_", "RATE_OF_INTEREST____P_A_", false⟩,
   ⟨"EMI_AMOUNT", "EMI_AMOUNT", false⟩,
   ⟨"LOAN_AMOUNT", "LOAN_AMOUNT", false⟩,
   ⟨"Brand share", "Correct brand share", false⟩,
   ⟨"Bank share", "Correct bank share", false⟩]

/-- Address of the module-level `SAMSUNG_FIELD_MAPPINGS` dict in the
initial heap. -/
def samsungAddr : Nat := 0

/-- The heap at module load: address 0 holds
`SAMSUNG_FIELD_MAPPINGS = {"mappings": [...]}`, address 1 the
`"mappings"` list, addresses 2–11 the ten entry dicts. -/
def samsungHeap : Heap :=
  { objs :=
      [(0, .dict [("mappings", .ref 1)]),
       (1, .list [.ref 2, .ref 3, .ref 4, .ref 5, .ref 6,
                  .ref 7, .ref 8, .ref 9, .ref 10, .ref 11]),
       (2, mappingDict ⟨"txn_ref_number", "Transaction Reference", true⟩),
       (3, mappingDict ⟨"TRANSACTIONAMOUNT", "Paid Amount", false⟩),
       (4, mappingDict ⟨"product_amount", "MRP", false⟩),
       (5, mappingDict ⟨"PRODUCT_CATEGORY", "PRODUCT_CATEGORY", false⟩),
       (6, mappingDict ⟨"Tenure", "Tenure", false⟩),
       (7, mappingDict ⟨"RATE_OF_INTEREST____P_A_", "RATE_OF_INTEREST____P_A_", false⟩),
       (8, mappingDict ⟨"EMI_AMOUNT", "EMI_AMOUNT", false⟩),
       (9, mappingDict ⟨"LOAN_AMOUNT", "LOAN_AMOUNT", false⟩),
       (10, mappingDict ⟨"Brand share", "Correct brand share", false⟩),
       (11, mappingDict ⟨"Bank share", "Correct bank share", false⟩)],
    nextAddr := 12 }

/-- `template_name.lower()`, modelled over the character list (ASCII
case folding; the template names in play are ASCII). -/
def pyLower (s : String) : String :=
  ⟨s.data.map Char.toLower⟩

/-- `config.get_field_mapping_template`: look `template_name.lower()`
up in `{"samsung": SAMSUNG_FIELD_MAPPINGS}`; unknown names raise
`ValueError` (modelled as `Except.error` with the source's message);
known names return `templates[...].copy()` — a shallow `dict.copy()`.
The result is the heap after the copy and the fresh dict's address. -/
def get_field_mapping_template (h : Heap) (templateName : String) :
    Except String (Heap × Nat) :=
  let templates : List (String × Nat) := [("samsung", samsungAddr)]
  match templates.lookup (pyLower templateName) with
  | Option.none =>
    .error ("Unknown template: " ++ templateName ++ ". Available templates: "
            ++ String.intercalate ", " (templates.map Prod.fst))
  | some a => .ok (dictCopy h a)

/-- Read one mapping entry back from the heap into pure data: the
entry must be a reference to a dict carrying the three expected
fields. -/
def readMapping (h : Heap) (v : PyVal) : Option FieldMapping :=
  match v with
  | .ref a =>
    match heapGet h a with
    | some (.dict fields) =>
      match fields.lookup "file1_column", fields.lookup "file2_column",
            fields.lookup "is_primary_key" with
      | some (.str s1), some (.str s2), some (.bool b) => some ⟨s1, s2, b⟩
      | _, _, _ => Option.none
    | _ => Option.none
  | _ => Option.none

/-- Read a whole template document (the value observers see) back from
the heap: dereference `d["mappings"]` and each entry. -/
def readTemplate (h : Heap) (a : Nat) : Option (List FieldMapping) :=
  match heapGet h a with
  | some (.dict fields) =>
    match fields.lookup "mappings" with
    | some (.ref la) =>
      match heapGet h la with
      | some (.list items) => items.mapM (readMapping h)
      | _ => Option.none
    | _ => Option.none
  | _ => Option.none

/-- The loop body of `get_primary_key_mapping`:
`for mapping in template["mappings"]: if mapping.get("is_primary_key"):
return {...}` then `return {}`. `Option.none` models a raised
`KeyError`/`TypeError` (never reached on well-formed entries). -/
def pkLoop (h : Heap) : List PyVal → Option (List (String × PyVal))
  | [] => some []
  | v :: rest =>
    match v with
    | .ref a =>
      match heapGet h a with
      | some (.dict fields) =>
        if pyTruthy ((fields.lookup "is_primary_key").getD .none) then
          match fields.lookup "file1_column", fields.lookup "file2_column" with
          | some v1, some v2 =>
            some [("file1_column", v1), ("file2_column", v2)]
          | _, _ => Option.none
        else pkLoop h rest
      | _ => Option.none
    | _ => Option.none

/-- `config.get_primary_key_mapping`: fetch the template (a fresh
shallow copy) and scan its `"mappings"` list for the first truthy
`is_primary_key` entry. -/
def get_primary_key_mapping (h : Heap) (templateName : String) :
    Except String (Option (List (String × PyVal))) :=
  match get_field_mapping_template h templateName with
  | .error e => .error e
  | .ok (h', a) =>
    match heapGet h' a with
    | some (.dict fields) =>
      match fields.lookup "mappings" with
      | some (.ref la) =>
        match heapGet h' la with
        | some (.list items) => .ok (pkLoop h' items)
        | _ => .ok Option.none
      | _ => .ok Option.none
    | _ => .ok Option.none

/-- What the loop returns, characterised over pure entries: the first
entry flagged as primary key, projected to its two columns; the empty
dict when none is flagged. -/
def pkSpec (ms : List FieldMapping) : List (String × PyVal) :=
  match ms.find? (fun m => m.is_primary_key) with
  | some m => [("file1_column", .str m.file1_column),
               ("file2_column", .str m.file2_column)]
  | Option.none => []

/-- `readsAll h items ms`: each heap entry in `items` reads back as
the corresponding pure entry in `ms`. -/
def readsAll (h : Heap) : List PyVal → List FieldMapping → Bool
  | [], [] => true
  | v :: vs, m :: ms =>
    if readMapping h v = some m then readsAll h vs ms else false
  | _, _ => false

/-- The mutation scenario for the copy claim, exactly as a caller
would write it in Python:
`t = get_field_mapping_template("samsung")`,
then `t["mappings"][0]["file1_column"] = "MUTATED"`.
Returns the heap afterwards (`Option.none` only on shape mismatch,
which does not occur). -/
def mutateThroughCopy : Option Heap :=
  match get_field_mapping_template samsungHeap "samsung" with
  | .error _ => Option.none
  | .ok (h1, copyAddr) =>
    match heapGet h1 copyAddr with
    | some (.dict fields) =>
      match fields.lookup "mappings" with
      | some (.ref la) =>
        match heapGet h1 la with
        | some (.list items) =>
          match items.head? with
          | some (.ref ea) =>
            some (dictSetField h1 ea "file1_column" (.str "MUTATED"))
          | _ => Option.none
        | _ => Option.none
      | _ => Option.none
    | _ => Option.none

end ReconConfig

open Recon ReconConfig

/-- C1: `_is_token_valid` is false before any authentication; after a
successful `authenticate` (HTTP 200 whose body carries a non-empty
`access_token`) with reported `expires_in > 60` it is true immediately;
the stored expiry is the authentication time plus `expires_in - 60`
seconds; and validity holds exactly at instants strictly before that
expiry, so it is false as soon as time reaches or passes it. -/
theorem token_validity_lifecycle :
    (∀ (now : Int) (baseUrl : String),
      isTokenValid now (initClient baseUrl) = false) ∧
    (∀ (now : Int) (s : ReconState) (u p : String) (r : HttpResponse)
        (body : Json) (tok : String),
      r.status = 200 → r.jsonBody = some body →
      jsonGetStr? body "access_token" = some tok → tok ≠ "" →
      ((authenticate now s u p (.response r)).2.success = true ∧
       (authenticate now s u p (.response r)).1.tokenExpiration =
         some (now + (jsonGetIntD body "expires_in" 3600 - 60)) ∧
       (jsonGetIntD body "expires_in" 3600 > 60 →
         isTokenValid now (authenticate now s u p (.response r)).1 = true) ∧
       (∀ t : Int,
         isTokenValid t (authenticate now s u p (.response r)).1 = true ↔
           t < now + (jsonGetIntD body "expires_in" 3600 - 60)))) := by
  constructor
  · intro now baseUrl
    rfl
  · intro now s u p r body tok h200 hbody htok htokne
    refine ⟨by simp [authenticate, h200, hbody], by simp [authenticate, h200, hbody], ?_, ?_⟩
    all_goals simp only [authenticate, h200, hbody, if_pos]
    · intro hgt
      simp only [isTokenValid, htok, if_neg htokne, decide_eq_true_eq]
      omega
    · intro t
      simp only [isTokenValid, htok, if_neg htokne, decide_eq_true_eq]

/-- A concrete run of `token_validity_lifecycle`: authenticating at
time 0 with a 200 response reporting token `"tok"` and
`expires_in = 3600` makes the token valid at time 0. -/
theorem token_validity_lifecycle_witness :
    isTokenValid 0 ((authenticate 0 (initClient "b") "u" "p"
      (.response { status := 200,
                   jsonBody := some (.obj [("access_token", .str "tok"),
                                           ("expires_in", .num 3600)]),
                   text := "" })).1) = true := by
  have h := token_validity_lifecycle.2 0 (initClient "b") "u" "p"
      { status := 200,
        jsonBody := some (.obj [("access_token", .str "tok"),
                                ("expires_in", .num 3600)]),
        text := "" }
      (.obj [("access_token", .str "tok"), ("expires_in", .num 3600)])
      "tok" rfl rfl rfl (by decide)
  exact h.2.2.1 (by decide)

/-- C2: every operation called while the client holds no valid token
returns `success = false` with the unauthenticated error message and
issues no HTTP request (for `upload_files` and `run_reconciliation`
this is the behaviour once the file checks, which run first, pass);
the operations never mutate the stored token, so none re-authenticates
transparently. -/
theorem unauthenticated_ops_fail_locally :
    ∀ (now : Int) (s : ReconState) (fs : List String)
      (f1 f2 cn ws cfg outp : String) (mp : Json) (outcome : NetOutcome),
    isTokenValid now s = false →
    ((fs.contains f1 = true → fs.contains f2 = true →
       upload_files now s fs f1 f2 cn outcome =
         ({ success := false, error := some authErrMsg }, {})) ∧
     (fs.contains f1 = true → fs.contains f2 = true →
       run_reconciliation now s fs cfg f1 f2 outcome =
         ({ success := false, error := some authErrMsg }, {})) ∧
     set_field_mapping now s ws cfg mp outcome =
       ({ success := false, error := some authErrMsg }, {}) ∧
     check_status now s ws outcome =
       ({ success := false, error := some authErrMsg }, {}) ∧
     download_results now s ws outp outcome =
       ({ success := false, error := some authErrMsg }, {})) := by
  intro now s fs f1 f2 cn ws cfg outp mp outcome htok
  refine ⟨?_, ?_, ?_, ?_, ?_⟩
  · intro h1 h2
    have hm1 : f1 ∈ fs := by simpa using h1
    have hm2 : f2 ∈ fs := by simpa using h2
    simp [upload_files, hm1, hm2, htok]
  · intro h1 h2
    have hm1 : f1 ∈ fs := by simpa using h1
    have hm2 : f2 ∈ fs := by simpa using h2
    simp [run_reconciliation, hm1, hm2, htok]
  · simp [set_field_mapping, htok]
  · simp [check_status, htok]
  · simp [download_results, htok]

/-- A concrete run of `unauthenticated_ops_fail_locally`: a fresh
client's `check_status` call fails with the unauthenticated message and
issues no request. -/
theorem unauthenticated_ops_fail_locally_witness :
    check_status 0 (initClient "b") "w" (.netError "boom") =
      ({ success := false, error := some authErrMsg }, {}) :=
  (unauthenticated_ops_fail_locally 0 (initClient "b") ["a"] "a" "a" "c"
    "w" "g" "o" .null (.netError "boom") rfl).2.2.2.1

/-- C4: `upload_files` (and `run_reconciliation`) with a missing first
or second path fails with `File not found: <the missing path>`, naming
exactly that path, with no file opened and no HTTP request issued. -/
theorem missing_file_fails_fast :
    ∀ (now : Int) (s : ReconState) (fs : List String)
      (f1 f2 cn cfg : String) (outcome : NetOutcome),
    (fs.contains f1 = false →
      upload_files now s fs f1 f2 cn outcome =
        ({ success := false, error := some ("File not found: " ++ f1) }, {}) ∧
      run_reconciliation now s fs cfg f1 f2 outcome =
        ({ success := false, error := some ("File not found: " ++ f1) }, {})) ∧
    (fs.contains f1 = true → fs.contains f2 = false →
      upload_files now s fs f1 f2 cn outcome =
        ({ success := false, error := some ("File not found: " ++ f2) }, {}) ∧
      run_reconciliation now s fs cfg f1 f2 outcome =
        ({ success := false, error := some ("File not found: " ++ f2) }, {})) := by
  intro now s fs f1 f2 cn cfg outcome
  constructor
  · intro h1
    have hm1 : f1 ∉ fs := by simpa using h1
    constructor
    · simp [upload_files, hm1]
    · simp [run_reconciliation, hm1]
  · intro h1 h2
    have hm1 : f1 ∈ fs := by simpa using h1
    have hm2 : f2 ∉ fs := by simpa using h2
    constructor
    · simp [upload_files, hm1, hm2]
    · simp [run_reconciliation, hm1, hm2]

/-- A concrete run of `missing_file_fails_fast`: uploading with a
missing first file names that file and produces no effects. -/
theorem missing_file_fails_fast_witness :
    upload_files 0 (initClient "b") ["present.xlsx"] "missing.xlsx"
        "present.xlsx" "cfg" (.netError "x") =
      ({ success := false, error := some ("File not found: " ++ "missing.xlsx") }, {}) :=
  ((missing_file_fails_fast 0 (initClient "b") ["present.xlsx"] "missing.xlsx"
    "present.xlsx" "cfg" "g" (.netError "x")).1 (by decide)).1

/-- C9: in `upload_files` and `run_reconciliation` the local file
checks run before the token check: with a missing file and no valid
token the result is the file-not-found error — which is never the
unauthenticated message — and no HTTP request is made. -/
theorem file_check_precedes_token_check :
    ∀ (now : Int) (s : ReconState) (fs : List String)
      (f1 f2 cn cfg : String) (outcome : NetOutcome),
    isTokenValid now s = false →
    ((fs.contains f1 = false →
      upload_files now s fs f1 f2 cn outcome =
        ({ success := false, error := some ("File not found: " ++ f1) }, {}) ∧
      run_reconciliation now s fs cfg f1 f2 outcome =
        ({ success := false, error := some ("File not found: " ++ f1) }, {})) ∧
     (fs.contains f1 = true → fs.contains f2 = false →
      upload_files now s fs f1 f2 cn outcome =
        ({ success := false, error := some ("File not found: " ++ f2) }, {}) ∧
      run_reconciliation now s fs cfg f1 f2 outcome =
        ({ success := false, error := some ("File not found: " ++ f2) }, {})) ∧
     (∀ p : String, ("File not found: " ++ p) ≠ authErrMsg)) := by
  intro now s fs f1 f2 cn cfg outcome _htok
  refine ⟨?_, ?_, ?_⟩
  · intro h1
    have hm1 : f1 ∉ fs := by simpa using h1
    exact ⟨by simp [upload_files, hm1], by simp [run_reconciliation, hm1]⟩
  · intro h1 h2
    have hm1 : f1 ∈ fs := by simpa using h1
    have hm2 : f2 ∉ fs := by simpa using h2
    exact ⟨by simp [upload_files, hm1, hm2], by simp [run_reconciliation, hm1, hm2]⟩
  · intro p h
    have h2 := congrArg String.data h
    rw [String.data_append] at h2
    simp [authErrMsg] at h2

/-- A concrete run of `file_check_precedes_token_check`: a fresh
(unauthenticated) client's upload with a missing first file reports the
file, not the missing token, and issues no request. -/
theorem file_check_precedes_token_check_witness :
    run_reconciliation 0 (initClient "b") ["present.xlsx"] "g" "missing.xlsx"
        "present.xlsx" (.netError "x") =
      ({ success := false, error := some ("File not found: " ++ "missing.xlsx") }, {}) :=
  (((file_check_precedes_token_check 0 (initClient "b") ["present.xlsx"]
    "missing.xlsx" "present.xlsx" "cfg" "g" (.netError "x")) rfl).1 (by decide)).2

/-- C3: for every authenticated operation, a response whose HTTP
status is outside 2xx yields `success = false`, an error string that
is the operation's failure phrase followed by the decimal status code
(so a 401 yields an error containing `"401"`), and `detail` set to the
body parsed as JSON when parseable, else the raw text. -/
theorem remote_rejection_uniform_shape :
    ∀ (now : Int) (s : ReconState) (fs : List String)
      (f1 f2 cn ws cfg outp : String) (mp : Json) (r : HttpResponse),
    isTokenValid now s = true →
    fs.contains f1 = true → fs.contains f2 = true →
    r.status < 200 ∨ 300 ≤ r.status →
    ((upload_files now s fs f1 f2 cn (.response r)).1 =
       { success := false,
         error := some ("Upload failed with status " ++ toString r.status),
         detail := some (detailOf r) } ∧
     (set_field_mapping now s ws cfg mp (.response r)).1 =
       { success := false,
         error := some ("Field mapping failed with status " ++ toString r.status),
         detail := some (detailOf r) } ∧
     (run_reconciliation now s fs cfg f1 f2 (.response r)).1 =
       { success := false,
         error := some ("Reconciliation failed with status " ++ toString r.status),
         detail := some (detailOf r) } ∧
     (check_status now s ws (.response r)).1 =
       { success := false,
         error := some ("Status check failed with status " ++ toString r.status),
         detail := some (detailOf r) } ∧
     (download_results now s ws outp (.response r)).1 =
       { success := false,
         error := some ("Download failed with status " ++ toString r.status),
         detail := some (detailOf r) } ∧
     (r.status = 401 → ∀ pfx : String,
        ∃ a b : String, pfx ++ toString r.status = a ++ "401" ++ b)) := by
  intro now s fs f1 f2 cn ws cfg outp mp r htok h1 h2 hst
  have hm1 : f1 ∈ fs := by simpa using h1
  have hm2 : f2 ∈ fs := by simpa using h2
  have hne2 : ¬ (r.status = 200 ∨ r.status = 201) := by omega
  have hne : ¬ r.status = 200 := by omega
  refine ⟨?_, ?_, ?_, ?_, ?_, ?_⟩
  · simp [upload_files, hm1, hm2, htok, hne2]
  · simp [set_field_mapping, htok, hne2]
  · simp [run_reconciliation, hm1, hm2, htok, hne2]
  · simp [check_status, htok, hne]
  · simp [download_results, htok, hne]
  · intro h401 pfx
    refine ⟨pfx, "", ?_⟩
    rw [h401]
    have h : (toString (401 : Nat) : String) = "401" := rfl
    rw [h]
    simp

/-- A concrete run of `remote_rejection_uniform_shape`: a 401 with a
parseable body on `check_status` gives the uniform failure with the
parsed body as `detail`. -/
theorem remote_rejection_uniform_shape_witness :
    (check_status 0 { baseUrl := "b", token := some "t", tokenExpiration := some 10 } "w"
        (.response { status := 401,
                     jsonBody := some (.obj [("detail", .str "unauthorized")]),
                     text := "raw" })).1 =
      { success := false,
        error := some ("Status check failed with status " ++ toString 401),
        detail := some (detailOf { status := 401,
                                   jsonBody := some (.obj [("detail", .str "unauthorized")]),
                                   text := "raw" }) } :=
  (remote_rejection_uniform_shape 0
    { baseUrl := "b", token := some "t", tokenExpiration := some 10 }
    ["a", "c"] "a" "c" "cfg" "w" "g" "o" .null
    { status := 401, jsonBody := some (.obj [("detail", .str "unauthorized")]), text := "raw" }
    rfl (by decide) (by decide) (by decide)).2.2.2.1

/-- C5: a successful `authenticate` (HTTP 200 with a parseable body)
overwrites the stored token and expiry with the new ones, and
operations issued afterwards attach `Bearer <stored token>`; an
`authenticate` that fails (non-200 status or network error) leaves the
client state — token and expiry — exactly as it was. -/
theorem authenticate_overwrites_or_preserves :
    ∀ (now : Int) (s : ReconState) (u p : String),
    ((∀ msg : String, (authenticate now s u p (.netError msg)).1 = s) ∧
     (∀ r : HttpResponse, r.status ≠ 200 →
        (authenticate now s u p (.response r)).1 = s) ∧
     (∀ (r : HttpResponse) (body : Json), r.status = 200 → r.jsonBody = some body →
        (authenticate now s u p (.response r)).1 =
          { s with token := jsonGetStr? body "access_token",
                   tokenExpiration :=
                     some (now + (jsonGetIntD body "expires_in" 3600 - 60)) }) ∧
     (∀ (s2 : ReconState) (ws : String) (outc : NetOutcome),
        isTokenValid now s2 = true →
        (check_status now s2 ws outc).2.requests =
          [{ url := s2.baseUrl ++ "/workspaces/" ++ ws ++ "/status",
             authHeader := some ("Bearer " ++ s2.token.getD "") }])) := by
  intro now s u p
  refine ⟨?_, ?_, ?_, ?_⟩
  · intro msg
    rfl
  · intro r hne
    simp [authenticate, hne]
  · intro r body h200 hbody
    simp [authenticate, h200, hbody]
  · intro s2 ws outc htok
    cases outc with
    | netError msg => simp [check_status, htok]
    | response r =>
      by_cases hr : r.status = 200
      · cases hb : r.jsonBody with
        | none => simp [check_status, htok, hr, hb]
        | some body => simp [check_status, htok, hr, hb]
      · simp [check_status, htok, hr]

/-- A concrete run of `authenticate_overwrites_or_preserves`: a second
successful login at time 5 replaces token `"old"` by `"new"` with the
new expiry, and a failed login leaves the old state intact. -/
theorem authenticate_overwrites_or_preserves_witness :
    (authenticate 5 { baseUrl := "b", token := some "old", tokenExpiration := some 100 }
        "u" "p" (.response { status := 200,
                             jsonBody := some (.obj [("access_token", .str "new"),
                                                     ("expires_in", .num 600)]),
                             text := "" })).1 =
      { baseUrl := "b", token := some "new", tokenExpiration := some (5 + (600 - 60)) } ∧
    (authenticate 5 { baseUrl := "b", token := some "old", tokenExpiration := some 100 }
        "u" "p" (.response { status := 500, jsonBody := none, text := "e" })).1 =
      { baseUrl := "b", token := some "old", tokenExpiration := some 100 } := by
  constructor
  · have h := (authenticate_overwrites_or_preserves 5
      { baseUrl := "b", token := some "old", tokenExpiration := some 100 } "u" "p").2.2.1
      { status := 200,
        jsonBody := some (.obj [("access_token", .str "new"), ("expires_in", .num 600)]),
        text := "" }
      (.obj [("access_token", .str "new"), ("expires_in", .num 600)]) rfl rfl
    rw [h]
    rfl
  · exact (authenticate_overwrites_or_preserves 5
      { baseUrl := "b", token := some "old", tokenExpiration := some 100 } "u" "p").2.1
      { status := 500, jsonBody := none, text := "e" } (by decide)

/-- C10: an HTTP 200 login whose JSON body has no `access_token`,
`token_type` or `expires_in` field still reports
`success = true, access_token = None, token_type = "Bearer",
expires_in = 3600` and stores `None` as the token, after which
`_is_token_valid` is false at every instant and every operation
(files present for the upload/run ones) fails with the unauthenticated
error. -/
theorem tokenless_login_success_then_unauthenticated :
    ∀ (now : Int) (s : ReconState) (u p : String) (r : HttpResponse) (body : Json)
      (fs : List String) (f1 f2 cn ws cfg outp : String) (mp : Json),
    r.status = 200 → r.jsonBody = some body →
    body.get "access_token" = Option.none →
    body.get "token_type" = Option.none →
    body.get "expires_in" = Option.none →
    ((authenticate now s u p (.response r)).2 =
       { success := true, access_token := some Option.none,
         token_type := some "Bearer", expires_in := some 3600 } ∧
     (authenticate now s u p (.response r)).1.token = Option.none ∧
     (∀ t : Int, isTokenValid t (authenticate now s u p (.response r)).1 = false) ∧
     (fs.contains f1 = true → fs.contains f2 = true → ∀ (t : Int) (outc : NetOutcome),
       (upload_files t (authenticate now s u p (.response r)).1 fs f1 f2 cn outc).1 =
         { success := false, error := some authErrMsg } ∧
       (run_reconciliation t (authenticate now s u p (.response r)).1 fs cfg f1 f2 outc).1 =
         { success := false, error := some authErrMsg }) ∧
     (∀ (t : Int) (outc : NetOutcome),
       (set_field_mapping t (authenticate now s u p (.response r)).1 ws cfg mp outc).1 =
         { success := false, error := some authErrMsg } ∧
       (check_status t (authenticate now s u p (.response r)).1 ws outc).1 =
         { success := false, error := some authErrMsg } ∧
       (download_results t (authenticate now s u p (.response r)).1 ws outp outc).1 =
         { success := false, error := some authErrMsg })) := by
  intro now s u p r body fs f1 f2 cn ws cfg outp mp h200 hbody hat htt hei
  have hval : ∀ t : Int, isTokenValid t (authenticate now s u p (.response r)).1 = false := by
    intro t
    simp [authenticate, h200, hbody, isTokenValid, jsonGetStr?, hat]
  refine ⟨?_, ?_, hval, ?_, ?_⟩
  · simp [authenticate, h200, hbody, jsonGetStr?, jsonGetStrD, jsonGetIntD, hat, htt, hei]
  · simp [authenticate, h200, hbody, jsonGetStr?, hat]
  · intro h1 h2 t outc
    have hm1 : f1 ∈ fs := by simpa using h1
    have hm2 : f2 ∈ fs := by simpa using h2
    exact ⟨by simp [upload_files, hm1, hm2, hval t],
           by simp [run_reconciliation, hm1, hm2, hval t]⟩
  · intro t outc
    exact ⟨by simp [set_field_mapping, hval t],
           by simp [check_status, hval t],
           by simp [download_results, hval t]⟩

/-- A concrete run of `tokenless_login_success_then_unauthenticated`:
a 200 login with body `{}` reports success with the defaults, yet the
next `check_status` fails unauthenticated. -/
theorem tokenless_login_success_then_unauthenticated_witness :
    (authenticate 0 (initClient "b") "u" "p"
        (.response { status := 200, jsonBody := some (.obj []), text := "{}" })).2 =
      { success := true, access_token := some Option.none,
        token_type := some "Bearer", expires_in := some 3600 } ∧
    (check_status 7 ((authenticate 0 (initClient "b") "u" "p"
        (.response { status := 200, jsonBody := some (.obj []), text := "{}" })).1) "w"
        (.netError "x")).1 =
      { success := false, error := some authErrMsg } := by
  have h := tokenless_login_success_then_unauthenticated 0 (initClient "b") "u" "p"
    { status := 200, jsonBody := some (.obj []), text := "{}" } (.obj [])
    ["a"] "a" "a" "cfg" "w" "g" "o" .null rfl rfl rfl rfl rfl
  exact ⟨h.1, (h.2.2.2.2 7 (.netError "x")).2.1⟩

/-- Helper: the primary-key loop, characterised over pure entries —
when every item of the scanned list reads back as the corresponding
`FieldMapping`, the loop returns the first entry flagged as primary
key projected to its two columns, and the empty dict when none is
flagged. -/
theorem pkLoopSpec (h : Heap) :
    ∀ (items : List PyVal) (ms : List FieldMapping),
      readsAll h items ms = true → pkLoop h items = some (pkSpec ms) := by
  intro items
  induction items with
  | nil =>
    intro ms hr
    cases ms with
    | nil => simp [pkLoop, pkSpec]
    | cons m ms => simp [readsAll] at hr
  | cons v vs ih =>
    intro ms hr
    cases ms with
    | nil => simp [readsAll] at hr
    | cons m ms =>
      rw [readsAll] at hr
      split at hr
      case isTrue hm =>
        cases v with
        | ref a =>
          simp only [readMapping] at hm
          split at hm
          case h_1 fields heq =>
            split at hm
            case h_1 s1 s2 b heq1 heq2 heq3 =>
              have hmeq : m = ⟨s1, s2, b⟩ := (Option.some.inj hm).symm
              subst hmeq
              simp only [pkLoop, heq, heq1, heq2, heq3]
              cases b with
              | true =>
                rw [if_pos (by simp [pyTruthy])]
                simp [pkSpec, List.find?]
              | false =>
                rw [if_neg (by simp [pyTruthy])]
                rw [ih ms hr]
                simp [pkSpec, List.find?]
            case h_2 => exact absurd hm (by simp)
          case h_2 => exact absurd hm (by simp)
        | none => exact absurd hm (by simp [readMapping])
        | str s => exact absurd hm (by simp [readMapping])
        | bool b => exact absurd hm (by simp [readMapping])
        | int n => exact absurd hm (by simp [readMapping])
      case isFalse hm => exact absurd hr (by simp)

/-- C6 counterexample: `get_field_mapping_template` does NOT return a
deep copy. Concretely: fetch the `"samsung"` template, assign
`"MUTATED"` to `t["mappings"][0]["file1_column"]` through the returned
value, and the built-in `SAMSUNG_FIELD_MAPPINGS` document — read back
through its own, original address — has changed. -/
theorem template_copy_not_deep_counterexample :
    (match mutateThroughCopy with
     | some h => readTemplate h samsungAddr
     | Option.none => Option.none) ≠ readTemplate samsungHeap samsungAddr ∧
    readTemplate samsungHeap samsungAddr = some samsungDoc ∧
    (match mutateThroughCopy with
     | some h => readTemplate h samsungAddr
     | Option.none => Option.none) =
      some (FieldMapping.mk "MUTATED" "Transaction Reference" true :: samsungDoc.tail) := by
  refine ⟨by decide, by decide, by decide⟩

/-- C6 amended: `get_field_mapping_template` returns a SHALLOW copy
(`dict.copy()`): the returned top-level dict is a fresh object with the
same fields — so replacing its top-level entries leaves the built-in
template unchanged — but the `"mappings"` list and its entry dicts are
shared with `SAMSUNG_FIELD_MAPPINGS`, so mutating an entry reached
through the returned value changes the built-in template as seen by a
later read. -/
theorem template_copy_shallow_amended :
    get_field_mapping_template samsungHeap "samsung" =
      .ok (dictCopy samsungHeap samsungAddr) ∧
    (dictCopy samsungHeap samsungAddr).2 ≠ samsungAddr ∧
    heapGet (dictCopy samsungHeap samsungAddr).1 (dictCopy samsungHeap samsungAddr).2 =
      heapGet samsungHeap samsungAddr ∧
    (∀ (k : String) (v : PyVal),
      heapGet
        (dictSetField (dictCopy samsungHeap samsungAddr).1
          (dictCopy samsungHeap samsungAddr).2 k v)
        samsungAddr = heapGet samsungHeap samsungAddr) ∧
    (match mutateThroughCopy with
     | some h => readTemplate h samsungAddr
     | Option.none => Option.none) =
      some (FieldMapping.mk "MUTATED" "Transaction Reference" true :: samsungDoc.tail) := by
  refine ⟨rfl, by decide, by decide, fun k v => rfl, by decide⟩

/-- C7: `get_field_mapping_template` is case-insensitive — every name
lowercasing to `"samsung"` yields the very same result as `"samsung"`
itself, a copy whose document reads back as the 10-entry samsung
document — and every other name yields the unknown-template error
listing the available template names. -/
theorem template_name_case_insensitive :
    ∀ name : String,
    (pyLower name = "samsung" →
      get_field_mapping_template samsungHeap name =
        get_field_mapping_template samsungHeap "samsung" ∧
      get_field_mapping_template samsungHeap name =
        .ok (dictCopy samsungHeap samsungAddr) ∧
      readTemplate (dictCopy samsungHeap samsungAddr).1
          (dictCopy samsungHeap samsungAddr).2 = some samsungDoc ∧
      samsungDoc.length = 10) ∧
    (pyLower name ≠ "samsung" →
      get_field_mapping_template samsungHeap name =
        .error ("Unknown template: " ++ name ++ ". Available templates: " ++ "samsung")) := by
  intro name
  constructor
  · intro hl
    refine ⟨?_, ?_, by decide, by decide⟩
    · simp [get_field_mapping_template, hl]
      rfl
    · simp [get_field_mapping_template, hl, samsungAddr]
  · intro hne
    simp [get_field_mapping_template, List.lookup, beq_eq_false_iff_ne.mpr hne]
    rfl

/-- A concrete run of `template_name_case_insensitive`: `"Samsung"`
gives the same result as `"samsung"`, and `"benow"` gives the
unknown-template error naming `samsung`. -/
theorem template_name_case_insensitive_witness :
    get_field_mapping_template samsungHeap "Samsung" =
      get_field_mapping_template samsungHeap "samsung" ∧
    get_field_mapping_template samsungHeap "benow" =
      .error ("Unknown template: " ++ "benow" ++ ". Available templates: " ++ "samsung") :=
  ⟨((template_name_case_insensitive "Samsung").1 (by decide)).1,
   (template_name_case_insensitive "benow").2 (by decide)⟩

/-- C8: `get_primary_key_mapping("samsung")` returns exactly
`{file1_column: "txn_ref_number", file2_column: "Transaction
Reference"}`; and in general the extraction loop returns the first
entry in order whose `is_primary_key` flag is true, projected to its
two column names, and the empty dict when no entry is flagged. -/
theorem primary_key_mapping_extraction :
    get_primary_key_mapping samsungHeap "samsung" =
      .ok (some [("file1_column", PyVal.str "txn_ref_number"),
                 ("file2_column", PyVal.str "Transaction Reference")]) ∧
    ∀ (h : Heap) (items : List PyVal) (ms : List FieldMapping),
      readsAll h items ms = true → pkLoop h items = some (pkSpec ms) :=
  ⟨rfl, pkLoopSpec⟩

/-- A concrete run of `primary_key_mapping_extraction`: scanning the
samsung entries in the built-in heap yields the projection of the
single flagged entry. -/
theorem primary_key_mapping_extraction_witness :
    pkLoop samsungHeap
        [.ref 2, .ref 3, .ref 4, .ref 5, .ref 6,
         .ref 7, .ref 8, .ref 9, .ref 10, .ref 11] =
      some (pkSpec samsungDoc) :=
  primary_key_mapping_extraction.2 samsungHeap
    [.ref 2, .ref 3, .ref 4, .ref 5, .ref 6,
     .ref 7, .ref 8, .ref 9, .ref 10, .ref 11] samsungDoc (by decide)
